import Mathlib

/-!
Verification of the notion-async crawler core, shallowly embedded from the
Rust sources (notion-async-api: api.rs, object.rs, fetcher.rs, error.rs,
block.rs). Pure logic is translated directly; HTTP transport is modelled by
passing the observable pieces of a response (status code, headers, decoded
or raw body) as explicit arguments.
-/

namespace Notion

/-- URL model: a path string plus the ordered list of query pairs. This is
the part of reqwest::Url that api.rs manipulates (query_pairs, clear,
extend_pairs, append_pair). -/
structure Url where
  path : String
  query : List (String × String)
deriving Repr, DecidableEq

/-- HTTP methods used by the client (reqwest::Method). -/
inductive Method
  | get
  | post
deriving Repr, DecidableEq

/-- BASE_URL in api.rs. -/
def baseUrl : String := "https://api.notion.com/v1/"

/-- One constructor per `impl Requestable for ...` in api.rs (lines 241-293). -/
inductive Requestable
  | block
  | page
  | database
  | objectListBlock
  | objectListAnyObject
  | objectListComment
  | user
  | objectListUser
deriving Repr, DecidableEq

/-- `Requestable::url` for each impl in api.rs. -/
def Requestable.url : Requestable → String → Url
  | .block, id => ⟨baseUrl ++ "blocks/" ++ id, []⟩
  | .page, id => ⟨baseUrl ++ "pages/" ++ id, []⟩
  | .database, id => ⟨baseUrl ++ "databases/" ++ id, []⟩
  | .objectListBlock, id => ⟨baseUrl ++ "blocks/" ++ id ++ "/children", []⟩
  | .objectListAnyObject, id => ⟨baseUrl ++ "databases/" ++ id ++ "/query", []⟩
  | .objectListComment, id => ⟨baseUrl ++ "comments", [("block_id", id)]⟩
  | .user, id => ⟨baseUrl ++ "users/" ++ id, []⟩
  | .objectListUser, _ => ⟨baseUrl ++ "users", []⟩

/-- `Requestable::method`: the trait default is GET; only the
database-query listing overrides it with POST. -/
def Requestable.method : Requestable → Method
  | .objectListAnyObject => .post
  | _ => .get

/-- RequestError in api.rs. `other` stands for RequestError::Other, the
variant wrapping a transport or body-decoding reqwest error. -/
inductive RequestError
  | invalidRequest (s : String)
  | invalidResponse (s : String)
  | retryAfter (secs : Nat)
  | other (s : String)
deriving Repr, DecidableEq

/-- NotionError in error.rs. -/
inductive NotionError
  | invalidObject (s : String)
  | requestFailed (e : RequestError)
deriving Repr, DecidableEq

/-- NotionError::invalid_response. -/
def NotionError.invalidResponse (s : String) : NotionError :=
  .requestFailed (.invalidResponse s)

/-- NotionError::retry_after. -/
def NotionError.retryAfterErr (secs : Nat) : NotionError :=
  .requestFailed (.retryAfter secs)

/-- HeaderValue::to_str from the http crate: succeeds when every byte of
the value is visible ASCII, space or horizontal tab (no control bytes, no
DEL, no bytes above 127). -/
def headerToStr (v : String) : Option String :=
  if v.toList.all (fun c => (32 ≤ c.toNat && c.toNat ≠ 127 && c.toNat ≤ 255) || c.toNat = 9) then
    some v
  else
    none

/-- u64::from_str in Rust: an optional leading plus sign, then one or more
ASCII digits, and the value must fit in 64 bits; anything else fails. -/
def parseU64 (s : String) : Option Nat :=
  let chars :=
    match s.toList with
    | '+' :: rest => rest
    | l => l
  if chars ≠ [] && chars.all Char.isDigit then
    let n := chars.foldl (fun acc c => acc * 10 + (c.toNat - 48)) 0
    if n < 2 ^ 64 then some n else none
  else
    none

/-- The combined Retry-After extraction in check_retry_after (api.rs
106-112): HeaderValue::to_str followed by str::parse. -/
def parseRetryAfter (v : String) : Option Nat :=
  (headerToStr v).bind parseU64

/-- check_retry_after (api.rs 98-116), over the observable response pieces:
the status code and the raw Retry-After header, if present. -/
def check_retry_after (status : Nat) (retryAfterHeader : Option String) :
    Except NotionError Unit :=
  if status = 429 then
    match retryAfterHeader with
    | none =>
      .error (NotionError.invalidResponse "encounter rate limited error without Retry-After")
    | some v =>
      match parseRetryAfter v with
      | none => .error (NotionError.invalidResponse "invalid Retry-After header")
      | some after => .error (NotionError.retryAfterErr after)
  else
    .ok ()

/-- StatusCode::is_success in the http crate: 200 through 299. -/
def statusIsSuccess (status : Nat) : Bool :=
  200 ≤ status && status ≤ 299

/-- check_status_code (api.rs 118-129). -/
def check_status_code (status : Nat) (bodyText : String) (url : Url) :
    Except NotionError Unit :=
  if !statusIsSuccess status then
    .error (NotionError.invalidResponse
      ("status: " ++ toString status ++ ", body: " ++ bodyText ++ ", url: " ++ url.path))
  else
    .ok ()

/-- A minimal JSON value, enough to express the response bodies decoded by
serde in object.rs. -/
inductive Json
  | null
  | bool (b : Bool)
  | str (s : String)
  | num (n : Int)
  | arr (elems : List Json)
  | obj (fields : List (String × Json))

/-- Field lookup on a JSON object; anything that is not an object has no
fields. -/
def Json.lookup : Json → String → Option Json
  | .obj fields, k => fields.lookup k
  | _, _ => none

/-- NextPageInfo (object.rs 86-90): the flattened pagination tail of every
listing response. -/
structure NextPageInfo where
  next_cursor : Option String
  has_more : Bool
deriving Repr, DecidableEq

/-- serde deserialization of NextPageInfo: has_more is a required bool
field, so its absence or a wrong type is a decode error; next_cursor is an
Option of String, which serde lets be absent or null (both give none), and
any other type than string is a decode error. -/
def decodeNextPageInfo (j : Json) : Except String NextPageInfo :=
  match j.lookup "has_more" with
  | none => .error "missing field has_more"
  | some (.bool b) =>
    match j.lookup "next_cursor" with
    | none => .ok ⟨none, b⟩
    | some .null => .ok ⟨none, b⟩
    | some (.str s) => .ok ⟨some s, b⟩
    | some _ => .error "invalid type: expected a string for next_cursor"
  | some _ => .error "invalid type: expected a boolean for has_more"

/-- ObjectType (object.rs 48-57). -/
inductive ObjectType
  | block
  | page
  | database
  | user
  | comment
  | list
deriving Repr, DecidableEq

/-- serde deserialization of ObjectType with rename_all snake_case. -/
def decodeObjectType (j : Json) : Except String ObjectType :=
  match j with
  | .str "block" => .ok .block
  | .str "page" => .ok .page
  | .str "database" => .ok .database
  | .str "user" => .ok .user
  | .str "comment" => .ok .comment
  | .str "list" => .ok .list
  | _ => .error "invalid value for ObjectType"

/-- ObjectList (object.rs 70-83): object tag, results, the string field
renamed from type, the serde-skipped start_index (defaulting to 0 on
decode), and the flattened NextPageInfo. -/
structure ObjectList (T : Type) where
  object : ObjectType
  results : List T
  ttype : String
  start_index : Nat
  next_page_info : NextPageInfo
deriving Repr

/-- Decode each element of a JSON array of results. -/
def decodeResults (decT : Json → Except String T) : List Json → Except String (List T)
  | [] => .ok []
  | j :: rest =>
    match decT j with
    | .error e => .error e
    | .ok v =>
      match decodeResults decT rest with
      | .error e => .error e
      | .ok vs => .ok (v :: vs)

/-- serde deserialization of ObjectList: the object tag, a results array
whose every element decodes, a string type field, start_index skipped
(0), and the flattened NextPageInfo taken from the same JSON object. -/
def decodeObjectList (decT : Json → Except String T) (j : Json) :
    Except String (ObjectList T) :=
  match j.lookup "object" with
  | none => .error "missing field object"
  | some jo =>
    match decodeObjectType jo with
    | .error e => .error e
    | .ok o =>
      match j.lookup "results" with
      | some (.arr elems) =>
        match decodeResults decT elems with
        | .error e => .error e
        | .ok rs =>
          match j.lookup "type" with
          | some (.str t) =>
            match decodeNextPageInfo j with
            | .error e => .error e
            | .ok npi => .ok ⟨o, rs, t, 0, npi⟩
          | _ => .error "missing or invalid field type"
      | _ => .error "missing or invalid field results"

/-- The NextCursor impl for ObjectList (object.rs 96-104): a has_more of
false is authoritative and hides any token that is still present. -/
def ObjectList.nextCursor (l : ObjectList T) : Option String :=
  if !l.next_page_info.has_more then none else l.next_page_info.next_cursor

/-- PaginationInfo (api.rs 138-144). -/
structure PaginationInfo where
  cursor : Option String
  url : Url
  method : Method
  start_index : Nat
deriving Repr, DecidableEq

/-- PaginationInfo::build (api.rs 154-161). -/
def PaginationInfo.build (url : Url) (method : Method) : PaginationInfo :=
  ⟨none, url, method, 0⟩

/-- PaginationInfo::new (api.rs 147-152): the URL and method come from the
Requestable type parameter. -/
def PaginationInfo.new (r : Requestable) (id : String) : PaginationInfo :=
  PaginationInfo.build (r.url id) r.method

/-- The cursor builder method of PaginationInfo (api.rs 163-166). -/
def PaginationInfo.setCursor (p : PaginationInfo) (c : String) : PaginationInfo :=
  { p with cursor := some c }

/-- The start_index builder method of PaginationInfo (api.rs 168-171). -/
def PaginationInfo.setStartIndex (p : PaginationInfo) (i : Nat) : PaginationInfo :=
  { p with start_index := i }

/-- The URL built at the start of next_page (api.rs 193-204): with no
cursor the stored URL is used as is; with a cursor, the query is rebuilt
from the stored pairs minus any start_cursor pair, then exactly one
start_cursor pair holding the token is appended. -/
def PaginationInfo.requestUrl (p : PaginationInfo) : Url :=
  match p.cursor with
  | none => p.url
  | some next_cursor =>
    { p.url with
      query := p.url.query.filter (fun kv => kv.1 ≠ "start_cursor")
        ++ [("start_cursor", next_cursor)] }

/-- PaginationResult (api.rs 225-229). -/
structure PaginationResult (T : Type) where
  result : ObjectList T
  pagination : Option PaginationInfo
deriving Repr

/-- The bookkeeping tail of next_page (api.rs 210-221): overwrite the
decoded start_index with the cursor position, and derive the next cursor
(same URL and method, token replaced, start_index advanced by the number
of results just returned) when the decoded page still has one. -/
def PaginationInfo.pageResult (p : PaginationInfo) (decoded : ObjectList T) :
    PaginationResult T :=
  let res : ObjectList T := { decoded with start_index := p.start_index }
  let next := res.nextCursor.map (fun x =>
    ((PaginationInfo.build p.url p.method).setCursor x).setStartIndex
      (p.start_index + res.results.length))
  ⟨res, next⟩

/-- The observable pieces of one HTTP listing response. -/
structure ListResponse where
  status : Nat
  retry_after : Option String
  body_text : String
  body : Json

/-- next_page (api.rs 193-222) over an explicit response: check the 429
path, check the status class, decode the body (a decode failure there goes
through the From instance for reqwest errors, i.e. RequestError::Other),
then apply the pagination bookkeeping. -/
def next_page (decT : Json → Except String T) (p : PaginationInfo)
    (resp : ListResponse) : Except NotionError (PaginationResult T) :=
  match check_retry_after resp.status resp.retry_after with
  | .error e => .error e
  | .ok _ =>
    match check_status_code resp.status resp.body_text p.requestUrl with
    | .error e => .error e
    | .ok _ =>
      match decodeObjectList decT resp.body with
      | .error e => .error (NotionError.requestFailed (.other e))
      | .ok l => .ok (p.pageResult l)

/-- BlockType (block.rs 35-76). -/
inductive BlockType
  | childPage
  | childDatabase
  | bookmark
  | breadcrumb
  | bulletedListItem
  | callout
  | code
  | column
  | columnList
  | divider
  | embed
  | equation
  | file
  | heading1
  | heading2
  | heading3
  | image
  | linkPreview
  | linkToPreview
  | mention
  | numberedListItem
  | paragraph
  | pdf
  | quote
  | syncedBlock
  | table
  | tableRow
  | tableOfContents
  | template
  | toDo
  | toggle
  | video
  | unsupported
deriving Repr, DecidableEq

/-- Block (block.rs 14-33). The crawler logic reads only the id, the
custom child_index, has_children and the block type; the remaining
kind-specific payload (ObjectCommon, type_data) is carried opaquely by
the record sink and is not consulted by fetcher.rs, so it is not
modelled. -/
structure Block where
  id : String
  child_index : Nat
  has_children : Bool
  block_type : BlockType
deriving Repr, DecidableEq

/-- Page (page.rs): only the id is read by the crawler. -/
structure Page where
  id : String
deriving Repr, DecidableEq

/-- Database (database.rs): only the id is read by the crawler. -/
structure Database where
  id : String
deriving Repr, DecidableEq

/-- User (user.rs): only the id is read by the crawler. -/
structure User where
  id : String
deriving Repr, DecidableEq

/-- Comment (comment.rs): only the id is read by the crawler. -/
structure Comment where
  id : String
deriving Repr, DecidableEq

/-- AnyObject (fetcher.rs 30-37). -/
inductive AnyObject
  | block (b : Block)
  | page (p : Page)
  | database (d : Database)
  | user (u : User)
  | comment (c : Comment)
deriving Repr, DecidableEq

/-- The Object::id impl for AnyObject (fetcher.rs 40-48). -/
def AnyObject.id : AnyObject → String
  | .block x => x.id
  | .page x => x.id
  | .database x => x.id
  | .user x => x.id
  | .comment x => x.id

/-- ReqType (fetcher.rs 66-75). -/
inductive ReqType
  | block (id : String)
  | page (id : String)
  | database (id : String)
  | blockChildren (p : PaginationInfo)
  | databaseQuery (p : PaginationInfo)
  | comments (p : PaginationInfo)
deriving Repr, DecidableEq

/-- Task (fetcher.rs 61-64). -/
structure Task where
  req_type : ReqType
deriving Repr, DecidableEq

/-- TaskOutput (fetcher.rs 77-85). -/
inductive TaskOutput
  | block (b : Block)
  | page (p : Page)
  | database (d : Database)
  | blockChildren (r : PaginationResult Block)
  | queryDatabase (r : PaginationResult AnyObject)
  | comments (r : PaginationResult Comment)

/-- get_task_for_block (fetcher.rs 343-363). -/
def get_task_for_block (block : Block) : Option Task :=
  match block.block_type with
  | .childPage => some ⟨.page block.id⟩
  | .childDatabase => some ⟨.database block.id⟩
  | _ =>
    if block.has_children then
      some ⟨.blockChildren (PaginationInfo.new .objectListBlock block.id)⟩
    else
      none

/-- The stamping loop of the BlockChildren branch of do_task (fetcher.rs
216-217): each block of the page gets child_index set to start_index plus
its index within the page. -/
def stampedBlocks (r : ObjectList Block) : List Block :=
  r.results.enum.map (fun q => { q.2 with child_index := r.start_index + q.1 })

/-- The match over one database-query item (fetcher.rs 234-252); none
stands for the unreachable! arms, which panic the task. -/
def taskForQueryItem (obj : AnyObject) : Option Task :=
  match obj with
  | .database _ =>
    some ⟨.databaseQuery (PaginationInfo.new .objectListAnyObject obj.id)⟩
  | .page _ =>
    some ⟨.blockChildren (PaginationInfo.new .objectListBlock obj.id)⟩
  | .block _ => none
  | .user _ => none
  | .comment _ => none

/-- The QueryDatabase result loop (fetcher.rs 233-255): emit each item and
derive its follow-up task, stopping with a panic (none) at the first item
that hits an unreachable! arm. -/
def queryLoop : List AnyObject → Option (List AnyObject × List Task)
  | [] => some ([], [])
  | obj :: rest =>
    match taskForQueryItem obj with
    | none => none
    | some t =>
      match queryLoop rest with
      | none => none
      | some pr => some (obj :: pr.1, t :: pr.2)

/-- The success half of do_task (fetcher.rs 177-284), returning the
records sent on res_tx and the follow-up tasks sent on task_tx, each in
send order; none models a panic via unreachable!. -/
def doTaskOk : TaskOutput → Option (List AnyObject × List Task)
  | .page p =>
    some ([.page p],
      [⟨.blockChildren (PaginationInfo.new .objectListBlock p.id)⟩,
       ⟨.comments (PaginationInfo.new .objectListComment p.id)⟩])
  | .database d =>
    -- fetcher.rs 203-205 builds this cursor from ObjectList of Block,
    -- i.e. the blocks children endpoint, not the database-query one
    some ([.database d],
      [⟨.databaseQuery (PaginationInfo.new .objectListBlock d.id)⟩])
  | .blockChildren r =>
    let stamped := stampedBlocks r.result
    some (stamped.map .block,
      stamped.filterMap get_task_for_block
        ++ (r.pagination.map (fun pg => [⟨ReqType.blockChildren pg⟩])).getD [])
  | .queryDatabase r =>
    match queryLoop r.result.results with
    | none => none
    | some pr =>
      some (pr.1,
        pr.2 ++ (r.pagination.map (fun pg => [⟨ReqType.databaseQuery pg⟩])).getD [])
  | .block b =>
    some ([.block b], (get_task_for_block b).elim [] (fun t => [t]))
  | .comments r =>
    some (r.result.results.map .comment,
      (r.pagination.map (fun pg => [⟨ReqType.comments pg⟩])).getD [])

/-- do_task (fetcher.rs 170-288): on a request error exactly one error item
goes to res_tx and nothing to task_tx; on success the branch for the
output kind runs. The first list holds the res_tx sends, the second the
task_tx sends; none models a panic. -/
def do_task (res : Except NotionError TaskOutput) :
    Option (List (Except NotionError AnyObject) × List Task) :=
  match res with
  | .ok out => (doTaskOk out).map (fun pr => (pr.1.map .ok, pr.2))
  | .error e => some ([.error e], [])

/-- Recognizer for the retry condition of the do_request loop (fetcher.rs
325-336): only a RequestFailed error wrapping RetryAfter retries. -/
def isThrottled : Except NotionError TaskOutput → Bool
  | .error (.requestFailed (.retryAfter _)) => true
  | _ => false

/-- The throttle seconds of a response, when it is one. -/
def throttleSecs : Except NotionError TaskOutput → Option Nat
  | .error (.requestFailed (.retryAfter s)) => some s
  | _ => none

/-- do_request (fetcher.rs 290-340), driven by the list of per-attempt
outcomes the transport would produce. Every iteration acquires a
rate-limiter token and issues the request for the unchanged task; a
throttled outcome sleeps for its seconds and loops, any other outcome
breaks. The return value is (sleeps performed, requests issued, final
outcome); none means the outcome list ran out while the loop was still
retrying. -/
def do_request (t : Task) :
    List (Except NotionError TaskOutput) →
    Option (List Nat × List ReqType × Except NotionError TaskOutput)
  | [] => none
  | r :: rest =>
    match throttleSecs r with
    | some secs =>
      (do_request t rest).map (fun x => (secs :: x.1, t.req_type :: x.2.1, x.2.2))
    | none => some ([], [t.req_type], r)

/-- What the server returns for one request of a listing: the page as
decoded, before the client overwrites start_index. -/
structure RawPage (T : Type) where
  results : List T
  next_page_info : NextPageInfo
deriving Repr

/-- The ObjectList a raw page decodes to (start_index is serde-skipped and
so 0 on decode). -/
def RawPage.toObjectList (r : RawPage T) : ObjectList T :=
  ⟨.list, r.results, "block", 0, r.next_page_info⟩

/-- The server pages form one complete listing: every page before the last
still reports a usable continuation per the NextCursor rule, and the last
page reports none. -/
def wellSplit : List (RawPage T) → Bool
  | [] => false
  | [pg] => pg.toObjectList.nextCursor.isNone
  | pg :: rest => pg.toObjectList.nextCursor.isSome && wellSplit rest

/-- Running one listing to completion: each step applies the next_page
bookkeeping (pageResult) to the current cursor and the page the server
returns, emits the stamped blocks of the BlockChildren branch of do_task,
and follows the derived cursor, stopping when none is derived. Collects
the child_index stamped onto each emitted block, in emission order. -/
def listingPositions : PaginationInfo → List (RawPage Block) → List Nat
  | _, [] => []
  | p, pg :: rest =>
    (stampedBlocks (p.pageResult pg.toObjectList).result).map (fun b => b.child_index)
      ++ (match (p.pageResult pg.toObjectList).pagination with
          | none => []
          | some p2 => listingPositions p2 rest)

/-- The total number of items the server hands out across the pages. -/
def pagesTotal (pages : List (RawPage T)) : Nat :=
  (pages.map (fun pg => pg.results.length)).sum

/-! Supporting lemmas about the pagination bookkeeping. -/

theorem stampedBlocks_positions (r : ObjectList Block) :
    (stampedBlocks r).map (fun b => b.child_index) =
      (List.range r.results.length).map (r.start_index + ·) := by
  unfold stampedBlocks
  rw [List.map_map]
  have h1 : ((fun b => b.child_index) ∘
      (fun q : Nat × Block => { q.2 with child_index := r.start_index + q.1 })) =
      (fun q : Nat × Block => r.start_index + q.1) := rfl
  rw [h1]
  have h2 : r.results.enum.map (fun q => r.start_index + q.1) =
      (r.results.enum.map Prod.fst).map (r.start_index + ·) := by
    rw [List.map_map]; rfl
  rw [h2, List.enum_map_fst]

theorem pageResult_result_results (p : PaginationInfo) (l : ObjectList T) :
    (p.pageResult l).result.results = l.results := rfl

theorem pageResult_result_start (p : PaginationInfo) (l : ObjectList T) :
    (p.pageResult l).result.start_index = p.start_index := rfl

theorem nextCursor_setStart (l : ObjectList T) (n : Nat) :
    ({ l with start_index := n } : ObjectList T).nextCursor = l.nextCursor := rfl

theorem pageResult_pagination_none (p : PaginationInfo) (l : ObjectList T)
    (h : l.nextCursor = none) : (p.pageResult l).pagination = none := by
  unfold PaginationInfo.pageResult
  simp only [nextCursor_setStart, h]
  rfl

theorem pageResult_pagination_some (p : PaginationInfo) (l : ObjectList T)
    (x : String) (h : l.nextCursor = some x) :
    (p.pageResult l).pagination =
      some ⟨some x, p.url, p.method, p.start_index + l.results.length⟩ := by
  unfold PaginationInfo.pageResult
  simp only [nextCursor_setStart, h, Option.map_some]
  rfl

theorem listingPositions_shift (pages : List (RawPage Block)) :
    ∀ p : PaginationInfo, wellSplit pages = true →
      listingPositions p pages = (List.range (pagesTotal pages)).map (p.start_index + ·) := by
  induction pages with
  | nil => intro p h; simp [wellSplit] at h
  | cons pg rest ih =>
    intro p h
    cases rest with
    | nil =>
      have hc : pg.toObjectList.nextCursor = none := by
        simpa [wellSplit, Option.isNone_iff_eq_none] using h
      rw [listingPositions, pageResult_pagination_none p _ hc, stampedBlocks_positions,
        pageResult_result_results, pageResult_result_start]
      simp [pagesTotal, RawPage.toObjectList]
    | cons pg2 rest2 =>
      have hsplit : pg.toObjectList.nextCursor.isSome = true ∧
          wellSplit (pg2 :: rest2) = true := by
        simpa [wellSplit] using h
      obtain ⟨x, hx⟩ := Option.isSome_iff_exists.mp hsplit.1
      rw [listingPositions, pageResult_pagination_some p _ x hx, stampedBlocks_positions,
        pageResult_result_results, pageResult_result_start]
      show (List.range pg.toObjectList.results.length).map (p.start_index + ·) ++
          listingPositions ⟨some x, p.url, p.method,
            p.start_index + pg.toObjectList.results.length⟩ (pg2 :: rest2) =
          (List.range (pagesTotal (pg :: pg2 :: rest2))).map (p.start_index + ·)
      rw [ih _ hsplit.2]
      have htot : pagesTotal (pg :: pg2 :: rest2) =
          pg.toObjectList.results.length + pagesTotal (pg2 :: rest2) := by
        simp [pagesTotal, RawPage.toObjectList]
      rw [htot, List.range_add, List.map_append, List.map_map]
      congr 1
      apply List.map_congr_left
      intro a _
      simp [Nat.add_assoc]

/-- A throttled outcome carrying its cool-down seconds. -/
def throttledResp (s : Nat) : Except NotionError TaskOutput :=
  Except.error (NotionError.retryAfterErr s)

theorem throttleSecs_of_not_throttled (r : Except NotionError TaskOutput)
    (h : isThrottled r = false) : throttleSecs r = none := by
  cases r with
  | ok v => rfl
  | error e =>
    cases e with
    | invalidObject s => rfl
    | requestFailed re =>
      cases re with
      | retryAfter s => simp [isThrottled] at h
      | invalidRequest s => rfl
      | invalidResponse s => rfl
      | other s => rfl

/-- C1: the spec table says a fetched single Database emits the Database
record and enqueues exactly one follow-up, a paginated database-query of
that database. The code does emit the record and enqueue exactly one
DatabaseQuery follow-up, but builds its cursor from the Requestable impl
of ObjectList of Block, so the cursor URL is the block-children endpoint
of the id with method GET, not the database-query endpoint with POST.
This theorem evaluates the embedded do_task on any fetched database,
exhibiting the enqueued cursor. -/
theorem c1_database_followup_targets_block_children (d : Database) :
    do_task (Except.ok (TaskOutput.database d)) =
      some ([Except.ok (AnyObject.database d)],
        [⟨ReqType.databaseQuery
            ⟨none, ⟨baseUrl ++ "blocks/" ++ d.id ++ "/children", []⟩, Method.get, 0⟩⟩]) := rfl

/-- C1 witness at a concrete database id, showing the concrete URL that
the enqueued cursor targets. -/
theorem c1_database_followup_targets_block_children_witness :
    do_task (Except.ok (TaskOutput.database ⟨"d1"⟩)) =
      some ([Except.ok (AnyObject.database ⟨"d1"⟩)],
        [⟨ReqType.databaseQuery
            ⟨none, ⟨"https://api.notion.com/v1/blocks/d1/children", []⟩, Method.get, 0⟩⟩]) :=
  c1_database_followup_targets_block_children ⟨"d1"⟩

/-- C3: on HTTP 429, a missing Retry-After header or one that does not
parse as a whole number of seconds is an invalid-response failure, and a
parsable header of s seconds is a throttled failure carrying exactly s;
no 429 is ever a success or a no-wait retry. -/
theorem c3_throttle_classification :
    check_retry_after 429 none =
      Except.error (NotionError.invalidResponse
        "encounter rate limited error without Retry-After") ∧
    (∀ v : String, parseRetryAfter v = none →
      check_retry_after 429 (some v) =
        Except.error (NotionError.invalidResponse "invalid Retry-After header")) ∧
    (∀ (v : String) (s : Nat), parseRetryAfter v = some s →
      check_retry_after 429 (some v) =
        Except.error (NotionError.retryAfterErr s)) := by
  refine ⟨rfl, ?_, ?_⟩
  · intro v h
    simp [check_retry_after, h]
  · intro v s h
    simp [check_retry_after, h]

/-- C3 witness: an unparsable header and the header 2 at concrete
inputs. -/
theorem c3_throttle_classification_witness :
    parseRetryAfter "xx" = none ∧
    check_retry_after 429 (some "xx") =
      Except.error (NotionError.invalidResponse "invalid Retry-After header") ∧
    parseRetryAfter "2" = some 2 ∧
    check_retry_after 429 (some "2") =
      Except.error (NotionError.retryAfterErr 2) :=
  ⟨by decide, c3_throttle_classification.2.1 "xx" (by decide),
   by decide, c3_throttle_classification.2.2 "2" 2 (by decide)⟩

/-- C4: the do_request loop sleeps exactly the seconds of each throttled
outcome, re-issues the request of the unchanged task once per attempt
(one rate-limiter acquire per issued request), terminates at the first
non-throttled outcome whatever it is, and does so after arbitrarily many
throttled outcomes (the list pre of throttle seconds is unbounded). -/
theorem c4_retry_loop (t : Task) (pre : List Nat)
    (final : Except NotionError TaskOutput)
    (rest : List (Except NotionError TaskOutput))
    (hfinal : isThrottled final = false) :
    do_request t (pre.map throttledResp ++ final :: rest) =
      some (pre, List.replicate (pre.length + 1) t.req_type, final) := by
  induction pre with
  | nil =>
    rw [List.map_nil, List.nil_append, do_request,
      throttleSecs_of_not_throttled final hfinal]
    rfl
  | cons s pre ih =>
    rw [List.map_cons, List.cons_append, do_request]
    have hts : throttleSecs (throttledResp s) = some s := rfl
    rw [hts, ih]
    rfl

/-- C4 witness: one throttle of 2 seconds followed by a success; the task
is issued twice, identical both times, and the final outcome is the
success. -/
theorem c4_retry_loop_witness :
    do_request ⟨ReqType.block "b"⟩
        ([2].map throttledResp
          ++ [Except.ok (TaskOutput.block ⟨"b", 0, false, BlockType.paragraph⟩)]) =
      some ([2], List.replicate 2 (ReqType.block "b"),
        Except.ok (TaskOutput.block ⟨"b", 0, false, BlockType.paragraph⟩)) :=
  c4_retry_loop ⟨ReqType.block "b"⟩ [2]
    (Except.ok (TaskOutput.block ⟨"b", 0, false, BlockType.paragraph⟩)) [] rfl

/-- C6: a has_more of false is authoritative: no next cursor is derived
and the pagination of the page result is none, even when a continuation
token is still present. -/
theorem c6_has_more_false_terminal (T : Type) (l : ObjectList T)
    (p : PaginationInfo) (h : l.next_page_info.has_more = false) :
    l.nextCursor = none ∧ (p.pageResult l).pagination = none := by
  have hc : l.nextCursor = none := by simp [ObjectList.nextCursor, h]
  exact ⟨hc, pageResult_pagination_none p l hc⟩

/-- C6 witness: a page that still carries the token tok but reports
has_more false derives no pagination. -/
theorem c6_has_more_false_terminal_witness :
    (⟨ObjectType.list, ([] : List Block), "block", 0,
        ⟨some "tok", false⟩⟩ : ObjectList Block).nextCursor = none ∧
    ((PaginationInfo.build ⟨"u", []⟩ Method.get).pageResult
        (⟨ObjectType.list, ([] : List Block), "block", 0,
          ⟨some "tok", false⟩⟩ : ObjectList Block)).pagination = none :=
  c6_has_more_false_terminal Block _ _ rfl

/-- C2: for a listing the server splits into any well-formed sequence of
pages, the emitted child positions are exactly 0..N-1 where N is the
total item count (here even in increasing order); moreover every derived
next-page cursor advances start_index by exactly the size of the page
just returned, and every emitted child is stamped start_index plus its
index within its page. -/
theorem c2_positions_complete :
    (∀ (r : Requestable) (id : String) (pages : List (RawPage Block)),
      wellSplit pages = true →
      listingPositions (PaginationInfo.new r id) pages = List.range (pagesTotal pages)) ∧
    (∀ (T : Type) (p : PaginationInfo) (l : ObjectList T) (p2 : PaginationInfo),
      (p.pageResult l).pagination = some p2 →
      p2.start_index = p.start_index + l.results.length) ∧
    (∀ r : ObjectList Block,
      (stampedBlocks r).map (fun b => b.child_index) =
        (List.range r.results.length).map (r.start_index + ·)) := by
  refine ⟨?_, ?_, stampedBlocks_positions⟩
  · intro r id pages h
    rw [listingPositions_shift pages (PaginationInfo.new r id) h]
    have h0 : (PaginationInfo.new r id).start_index = 0 := rfl
    rw [h0]
    simp
  · intro T p l p2 h
    unfold PaginationInfo.pageResult at h
    simp only [nextCursor_setStart] at h
    cases hc : l.nextCursor with
    | none => rw [hc] at h; simp at h
    | some x =>
      rw [hc] at h
      simp only [Option.map_some'] at h
      have := Option.some.inj h
      rw [← this]
      rfl

/-- C2 witness: 3 items split as 2 plus 1; the emitted positions are
exactly 0, 1, 2. -/
theorem c2_positions_complete_witness :
    wellSplit
      [(⟨[⟨"a", 0, false, BlockType.paragraph⟩, ⟨"b", 0, false, BlockType.paragraph⟩],
          ⟨some "t", true⟩⟩ : RawPage Block),
        ⟨[⟨"c", 0, false, BlockType.paragraph⟩], ⟨none, false⟩⟩] = true ∧
    listingPositions (PaginationInfo.new Requestable.objectListBlock "x")
      [(⟨[⟨"a", 0, false, BlockType.paragraph⟩, ⟨"b", 0, false, BlockType.paragraph⟩],
          ⟨some "t", true⟩⟩ : RawPage Block),
        ⟨[⟨"c", 0, false, BlockType.paragraph⟩], ⟨none, false⟩⟩] = List.range 3 :=
  ⟨rfl, c2_positions_complete.1 Requestable.objectListBlock "x" _ rfl⟩

/-- The observable pieces of one HTTP response for a single-object fetch:
status, the raw Retry-After header if any, the body text, and the result
of the typed serde decode of the body. -/
structure HttpResponse (T : Type) where
  status : Nat
  retry_after : Option String
  body_text : String
  decoded : Except String T

/-- get_object (api.rs 73-87) over an explicit response: the 429 check,
the status-class check, then the typed decode, whose failure is mapped to
InvalidResponse with a decode-failed message. -/
def get_object (resp : HttpResponse T) (url : Url) : Except NotionError T :=
  match check_retry_after resp.status resp.retry_after with
  | .error e => .error e
  | .ok _ =>
    match check_status_code resp.status resp.body_text url with
    | .error e => .error e
    | .ok _ =>
      match resp.decoded with
      | .error e =>
        .error (NotionError.invalidResponse
          ("decode failed: " ++ e ++ ", " ++ url.path))
      | .ok v => .ok v

/-- C5: a request that fails with a non-2xx status (other than the 429
throttle path) or with an undecodable 2xx body produces an error, and
do_task on any error outcome sends exactly one error item into the output
stream and enqueues zero follow-up tasks. -/
theorem c5_failed_task_single_error :
    (∀ (T : Type) (resp : HttpResponse T) (url : Url),
      ((statusIsSuccess resp.status = false ∧ resp.status ≠ 429) ∨
        (statusIsSuccess resp.status = true ∧ ∃ msg, resp.decoded = Except.error msg)) →
      ∃ e, get_object resp url = Except.error e) ∧
    (∀ e : NotionError, do_task (Except.error e) = some ([Except.error e], [])) := by
  constructor
  · intro T resp url h
    cases hg : get_object resp url with
    | error e => exact ⟨e, rfl⟩
    | ok v =>
      exfalso
      rcases h with ⟨hs, h429⟩ | ⟨hs, msg, hdec⟩
      · unfold get_object at hg
        simp [check_retry_after, h429, check_status_code, hs] at hg
      · have h429 : resp.status ≠ 429 := by
          intro hq
          rw [hq] at hs
          simp [statusIsSuccess] at hs
        unfold get_object at hg
        simp [check_retry_after, h429, check_status_code, hs, hdec] at hg
  · intro e
    rfl

/-- C5 witness: a 404 on a single-block fetch errors, and do_task on an
error sends one error item and no tasks. -/
theorem c5_failed_task_single_error_witness :
    (∃ e, get_object
        (⟨404, none, "not found", Except.error "x"⟩ : HttpResponse Block)
        ⟨"u", []⟩ = Except.error e) ∧
    do_task (Except.error (NotionError.invalidResponse "boom")) =
      some ([Except.error (NotionError.invalidResponse "boom")], []) :=
  ⟨c5_failed_task_single_error.1 Block ⟨404, none, "not found", Except.error "x"⟩
      ⟨"u", []⟩ (Or.inl ⟨rfl, by decide⟩),
   c5_failed_task_single_error.2 (NotionError.invalidResponse "boom")⟩

/-- C7 counterexample: a 2xx listing response whose body reports has_more
true but carries no next_cursor field decodes successfully and the fetch
succeeds with no derived pagination, i.e. the listing silently ends
instead of failing, contradicting the claim that a usable continuation is
required when has_more is true. -/
theorem c7_has_more_true_missing_token_not_failure :
    decodeNextPageInfo (Json.obj [("has_more", Json.bool true)]) =
      Except.ok ⟨none, true⟩ ∧
    next_page (fun _ => Except.error "no")
        (PaginationInfo.new Requestable.objectListBlock "b")
        ⟨200, none, "",
          Json.obj [("object", Json.str "list"), ("results", Json.arr []),
            ("type", Json.str "block"), ("has_more", Json.bool true)]⟩ =
      Except.ok
        ⟨⟨ObjectType.list, ([] : List Block), "block", 0, ⟨none, true⟩⟩, none⟩ :=
  ⟨rfl, rfl⟩

/-- C7 amended: a listing body without a has_more flag, or whose
next_cursor has a JSON type other than string or null, fails to decode and
the fetch fails (surfaced through the reqwest From conversion as a
generic request error, not silently as an empty or terminal page); but
has_more true with an absent or null token decodes fine and is treated as
the end of the listing. -/
theorem c7_malformed_continuation_fails :
    (∀ j : Json, j.lookup "has_more" = none →
      decodeNextPageInfo j = Except.error "missing field has_more") ∧
    (∀ (j : Json) (b : Bool) (v : Json),
      j.lookup "has_more" = some (Json.bool b) →
      j.lookup "next_cursor" = some v →
      (∀ s, v ≠ Json.str s) → v ≠ Json.null →
      decodeNextPageInfo j =
        Except.error "invalid type: expected a string for next_cursor") ∧
    (∀ (T : Type) (decT : Json → Except String T) (p : PaginationInfo)
        (resp : ListResponse) (msg : String),
      statusIsSuccess resp.status = true →
      decodeObjectList decT resp.body = Except.error msg →
      next_page decT p resp =
        Except.error (NotionError.requestFailed (RequestError.other msg))) ∧
    (∀ (T : Type) (p : PaginationInfo) (l : ObjectList T),
      l.next_page_info.next_cursor = none → (p.pageResult l).pagination = none) := by
  refine ⟨?_, ?_, ?_, ?_⟩
  · intro j h
    simp [decodeNextPageInfo, h]
  · intro j b v h1 h2 hs hn
    cases v with
    | null => exact absurd rfl hn
    | str s => exact absurd rfl (hs s)
    | bool b2 => simp [decodeNextPageInfo, h1, h2]
    | num n => simp [decodeNextPageInfo, h1, h2]
    | arr elems => simp [decodeNextPageInfo, h1, h2]
    | obj fields => simp [decodeNextPageInfo, h1, h2]
  · intro T decT p resp msg hs hdec
    have h429 : resp.status ≠ 429 := by
      intro hq
      rw [hq] at hs
      simp [statusIsSuccess] at hs
    unfold next_page
    simp [check_retry_after, h429, check_status_code, hs, hdec]
  · intro T p l h
    apply pageResult_pagination_none
    simp [ObjectList.nextCursor, h]

/-- C7 amended witness: a body without has_more fails to decode; a numeric
next_cursor fails to decode; a 200 response whose body is not even an
object fails the fetch with a request error; has_more true with a null
token derives no pagination. -/
theorem c7_malformed_continuation_fails_witness :
    decodeNextPageInfo Json.null = Except.error "missing field has_more" ∧
    decodeNextPageInfo
        (Json.obj [("has_more", Json.bool true), ("next_cursor", Json.num 5)]) =
      Except.error "invalid type: expected a string for next_cursor" ∧
    next_page (fun _ => (Except.error "no" : Except String Block))
        (PaginationInfo.new Requestable.objectListBlock "b")
        (⟨200, none, "", Json.null⟩ : ListResponse) =
      Except.error (NotionError.requestFailed (RequestError.other "missing field object")) ∧
    ((PaginationInfo.build ⟨"u", []⟩ Method.get).pageResult
        (⟨ObjectType.list, ([] : List Block), "block", 0, ⟨none, true⟩⟩ :
          ObjectList Block)).pagination = none :=
  ⟨c7_malformed_continuation_fails.1 Json.null rfl,
   c7_malformed_continuation_fails.2.1
     (Json.obj [("has_more", Json.bool true), ("next_cursor", Json.num 5)])
     true (Json.num 5) rfl rfl (fun _ h => Json.noConfusion h) (fun h => Json.noConfusion h),
   c7_malformed_continuation_fails.2.2.1 Block
     (fun _ => (Except.error "no" : Except String Block))
     (PaginationInfo.new Requestable.objectListBlock "b")
     ⟨200, none, "", Json.null⟩ "missing field object" rfl rfl,
   c7_malformed_continuation_fails.2.2.2 Block
     (PaginationInfo.build ⟨"u", []⟩ Method.get)
     ⟨ObjectType.list, ([] : List Block), "block", 0, ⟨none, true⟩⟩ rfl⟩

/-- C8: a child-page block always yields a single page fetch of its id,
never a block-children listing, whatever its has-children flag says; a
child-database block yields a single database fetch; and the
block-children follow-up arises exactly for the remaining block types
with nested children. -/
theorem c8_child_page_yields_page_fetch (b : Block) :
    (b.block_type = BlockType.childPage →
      get_task_for_block b = some ⟨ReqType.page b.id⟩) ∧
    (b.block_type = BlockType.childDatabase →
      get_task_for_block b = some ⟨ReqType.database b.id⟩) ∧
    (b.block_type ≠ BlockType.childPage → b.block_type ≠ BlockType.childDatabase →
      get_task_for_block b =
        if b.has_children then
          some ⟨ReqType.blockChildren (PaginationInfo.new Requestable.objectListBlock b.id)⟩
        else none) := by
  refine ⟨?_, ?_, ?_⟩
  · intro h
    simp [get_task_for_block, h]
  · intro h
    simp [get_task_for_block, h]
  · intro h1 h2
    cases hb : b.block_type <;>
      first
      | exact absurd hb h1
      | exact absurd hb h2
      | simp [get_task_for_block, hb]

/-- C8 witness: a child-page block with has_children true still yields a
page fetch, and a paragraph block with children yields the block-children
listing. -/
theorem c8_child_page_yields_page_fetch_witness :
    get_task_for_block ⟨"cp", 0, true, BlockType.childPage⟩ =
      some ⟨ReqType.page "cp"⟩ ∧
    get_task_for_block ⟨"pa", 0, true, BlockType.paragraph⟩ =
      some ⟨ReqType.blockChildren
        (PaginationInfo.new Requestable.objectListBlock "pa")⟩ :=
  ⟨(c8_child_page_yields_page_fetch ⟨"cp", 0, true, BlockType.childPage⟩).1 rfl,
   by
    rw [(c8_child_page_yields_page_fetch ⟨"pa", 0, true, BlockType.paragraph⟩).2.2
      (by simp) (by simp)]
    rfl⟩

/-- An item of a database-query page that hits an unreachable! arm of the
match in fetcher.rs 234-252: a Block, User or Comment. -/
def badQueryItem : AnyObject → Bool
  | .block _ => true
  | .user _ => true
  | .comment _ => true
  | .page _ => false
  | .database _ => false

theorem taskForQueryItem_none_iff (o : AnyObject) :
    taskForQueryItem o = none ↔ badQueryItem o = true := by
  cases o <;> simp [taskForQueryItem, badQueryItem]

theorem queryLoop_eq_none_iff (l : List AnyObject) :
    queryLoop l = none ↔ l.any badQueryItem = true := by
  induction l with
  | nil => simp [queryLoop]
  | cons o rest ih =>
    simp only [queryLoop, List.any_cons, Bool.or_eq_true]
    cases hto : taskForQueryItem o with
    | none =>
      have hb := (taskForQueryItem_none_iff o).mp hto
      simp [hb]
    | some t =>
      have hb : badQueryItem o = false := by
        cases hbo : badQueryItem o
        · rfl
        · exact absurd ((taskForQueryItem_none_iff o).mpr hbo) (by simp [hto])
      cases hq : queryLoop rest with
      | none => simp [hb, ih.mp hq]
      | some pr =>
        have hra : rest.any badQueryItem = false := by
          cases hcase : rest.any badQueryItem
          · rfl
          · rw [ih.mpr hcase] at hq; cases hq
        simp [hb, hra]

/-- C9: processing a database-query page panics (the unreachable! arms,
modelled as none) exactly when some decoded item is a Block, User or
Comment; pages holding only Page and Database items are handled without
panicking, so a bad item is never turned into an error record. -/
theorem c9_query_page_unreachable (r : PaginationResult AnyObject) :
    (r.result.results.any badQueryItem = true →
      do_task (Except.ok (TaskOutput.queryDatabase r)) = none) ∧
    (r.result.results.any badQueryItem = false →
      do_task (Except.ok (TaskOutput.queryDatabase r)) ≠ none) := by
  constructor
  · intro h
    have hq := (queryLoop_eq_none_iff r.result.results).mpr h
    simp [do_task, doTaskOk, hq]
  · intro h hcontra
    have hex : ∃ pr, queryLoop r.result.results = some pr := by
      cases hq : queryLoop r.result.results with
      | none => rw [(queryLoop_eq_none_iff _).mp hq] at h; cases h
      | some pr => exact ⟨pr, rfl⟩
    obtain ⟨pr, hq⟩ := hex
    simp [do_task, doTaskOk, hq] at hcontra

/-- C9 witness: a query page holding a User item panics, and one holding
only a Page item does not. -/
theorem c9_query_page_unreachable_witness :
    do_task (Except.ok (TaskOutput.queryDatabase
      ⟨⟨ObjectType.list, [AnyObject.user ⟨"u1"⟩], "page_or_database", 0,
        ⟨none, false⟩⟩, none⟩)) = none ∧
    do_task (Except.ok (TaskOutput.queryDatabase
      ⟨⟨ObjectType.list, [AnyObject.page ⟨"p1"⟩], "page_or_database", 0,
        ⟨none, false⟩⟩, none⟩)) ≠ none :=
  ⟨(c9_query_page_unreachable
      ⟨⟨ObjectType.list, [AnyObject.user ⟨"u1"⟩], "page_or_database", 0,
        ⟨none, false⟩⟩, none⟩).1 rfl,
   (c9_query_page_unreachable
      ⟨⟨ObjectType.list, [AnyObject.page ⟨"p1"⟩], "page_or_database", 0,
        ⟨none, false⟩⟩, none⟩).2 rfl⟩

/-- C10: with a continuation token, the next-page request URL keeps the
path, drops any pre-existing start_cursor pair from the query, appends
exactly one start_cursor pair holding the token, and preserves all other
query pairs; with no token the stored URL is issued unmodified. -/
theorem c10_next_page_url (p q : PaginationInfo) (tok : String)
    (hp : p.cursor = some tok) (hq : q.cursor = none) :
    p.requestUrl.path = p.url.path ∧
    p.requestUrl.query =
      p.url.query.filter (fun kv => kv.1 ≠ "start_cursor") ++ [("start_cursor", tok)] ∧
    p.requestUrl.query.countP (fun kv => kv.1 == "start_cursor") = 1 ∧
    p.requestUrl.query.filter (fun kv => kv.1 ≠ "start_cursor") =
      p.url.query.filter (fun kv => kv.1 ≠ "start_cursor") ∧
    q.requestUrl = q.url := by
  have hreq : p.requestUrl =
      { p.url with query := p.url.query.filter (fun kv => kv.1 ≠ "start_cursor")
          ++ [("start_cursor", tok)] } := by
    unfold PaginationInfo.requestUrl
    rw [hp]
  refine ⟨by rw [hreq], by rw [hreq], ?_, ?_, ?_⟩
  · rw [hreq]
    show (p.url.query.filter (fun kv => kv.1 ≠ "start_cursor")
        ++ [("start_cursor", tok)]).countP (fun kv => kv.1 == "start_cursor") = 1
    rw [List.countP_append]
    have hzero : (p.url.query.filter (fun kv => kv.1 ≠ "start_cursor")).countP
        (fun kv => kv.1 == "start_cursor") = 0 := by
      rw [List.countP_eq_zero]
      intro a ha
      have := List.of_mem_filter ha
      simp at this
      simp [this]
    rw [hzero]
    rfl
  · rw [hreq]
    show (p.url.query.filter (fun kv => kv.1 ≠ "start_cursor")
        ++ [("start_cursor", tok)]).filter (fun kv => kv.1 ≠ "start_cursor") =
      p.url.query.filter (fun kv => kv.1 ≠ "start_cursor")
    rw [List.filter_append, List.filter_filter]
    simp
  · unfold PaginationInfo.requestUrl
    rw [hq]

/-- C10 witness: a comments cursor with block_id plus a stale start_cursor
pair, and a fresh cursor with no token. -/
theorem c10_next_page_url_witness :
    (⟨some "T", ⟨"u", [("block_id", "b"), ("start_cursor", "old")]⟩,
        Method.get, 0⟩ : PaginationInfo).requestUrl.path = "u" ∧
    (⟨some "T", ⟨"u", [("block_id", "b"), ("start_cursor", "old")]⟩,
        Method.get, 0⟩ : PaginationInfo).requestUrl.query =
      [("block_id", "b"), ("start_cursor", "old")].filter
        (fun kv => kv.1 ≠ "start_cursor") ++ [("start_cursor", "T")] ∧
    (⟨some "T", ⟨"u", [("block_id", "b"), ("start_cursor", "old")]⟩,
        Method.get, 0⟩ : PaginationInfo).requestUrl.query.countP
      (fun kv => kv.1 == "start_cursor") = 1 ∧
    (⟨some "T", ⟨"u", [("block_id", "b"), ("start_cursor", "old")]⟩,
        Method.get, 0⟩ : PaginationInfo).requestUrl.query.filter
        (fun kv => kv.1 ≠ "start_cursor") =
      [("block_id", "b"), ("start_cursor", "old")].filter
        (fun kv => kv.1 ≠ "start_cursor") ∧
    (⟨none, ⟨"u", []⟩, Method.get, 0⟩ : PaginationInfo).requestUrl = ⟨"u", []⟩ :=
  c10_next_page_url
    ⟨some "T", ⟨"u", [("block_id", "b"), ("start_cursor", "old")]⟩, Method.get, 0⟩
    ⟨none, ⟨"u", []⟩, Method.get, 0⟩ "T" rfl rfl

end Notion
